import Mathlib

/-!
Verification of kraken/lib/pretrain/model.py (recognition model pretraining).

Shallow embedding of the data-handling and training-step logic of the
pretraining module: the dataset build loop of PretrainDataModule, the
split construction, and the RecognitionPretrainModel step, optimizer
warmup, metric tracking and setup logic. Tensors are modelled as lists of
rationals; exceptions are modelled with Except / explicit outcome types.
-/

namespace KrakenPretrain

/-! ### Dataset builder: PretrainDataModule._build_dataset and _star_fun

The outcome of one dataset.add call: success, a KrakenInputException, a
FileNotFoundError, or some other exception. -/

inductive AddOutcome where
  | ok
  | krakenInput (msg : String)
  | fileNotFound (msg : String)
  | otherError (msg : String)
  deriving DecidableEq, Repr

/-- Embeds the add loop of PretrainDataModule._build_dataset (model.py lines
235 to 239): samples are added one at a time; only KrakenInputException is
caught (a warning is logged and the sample skipped); every other exception
propagates and aborts the build. Returns the number of samples added and the
number of warnings logged, or the propagated exception. -/
def buildDataset : List AddOutcome → Except AddOutcome (Nat × Nat)
  | [] => Except.ok (0, 0)
  | AddOutcome.ok :: rest =>
      match buildDataset rest with
      | Except.ok (a, w) => Except.ok (a + 1, w)
      | Except.error e => Except.error e
  | AddOutcome.krakenInput _ :: rest =>
      match buildDataset rest with
      | Except.ok (a, w) => Except.ok (a, w + 1)
      | Except.error e => Except.error e
  | e :: _ => Except.error e

/-- Embeds the module-level helper _star_fun (model.py lines 66 to 73): it
calls fun, catches FileNotFoundError and KrakenInputException (logging a
warning and returning None), and lets any other exception propagate. Note
that _star_fun is not called from _build_dataset. -/
def starFun (r : AddOutcome) : Except AddOutcome (Option Unit) :=
  match r with
  | AddOutcome.ok => Except.ok (some ())
  | AddOutcome.krakenInput _ => Except.ok none
  | AddOutcome.fileNotFound _ => Except.ok none
  | AddOutcome.otherError m => Except.error (AddOutcome.otherError m)

/-! ### Split construction: PretrainDataModule.__init__ -/

/-- Embeds train_len = int(len(train_set) * partition) (model.py line 198).
For a non-negative partition fraction, Python int() truncation agrees with
the floor. -/
def trainSplitLen (n : Nat) (f : ℚ) : Nat := (Int.floor ((n : ℚ) * f)).toNat

/-- Embeds torch random_split(train_set, (train_len, val_len)) (model.py line
203): a random permutation of the dataset indices is split into consecutive
chunks of the requested lengths. The permutation is passed explicitly. -/
def randomSplit (perm : List Nat) (tLen : Nat) : List Nat × List Nat :=
  (perm.take tLen, perm.drop tLen)

/-- Embeds the empty-split check (model.py lines 219 to 221): if either split
is empty a ValueError is raised. -/
def checkSplits (trainLen valLen : Nat) : Except String Unit :=
  if trainLen = 0 ∨ valLen = 0 then
    Except.error "No valid training data was provided to the train command. Please add valid XML, line, or binary data."
  else Except.ok ()

/-! ### Model type check: RecognitionPretrainModel.__init__ -/

inductive ModelTypeCheck where
  | accepted
  | wrongType (t : String)
  deriving DecidableEq, Repr

/-- Embeds the loaded-model type check (model.py lines 297 to 298): a loaded
model whose model_type is not in [None, recognition] raises a ValueError
naming the offending type. -/
def checkModelType (modelType : Option String) : ModelTypeCheck :=
  if modelType = none ∨ modelType = some "recognition" then ModelTypeCheck.accepted
  else ModelTypeCheck.wrongType (modelType.getD "")

/-! ### Optimizer warmup: RecognitionPretrainModel.optimizer_step -/

/-- Embeds the learning-rate override after optimizer.step (model.py lines
434 to 437): while warmup is configured (truthy, i.e. nonzero) and
global_step < warmup, every parameter group gets
lr = min(1, (global_step + 1) / warmup) * lrate; otherwise the groups are
left untouched. -/
def warmupLRUpdate (warmup globalStep : Nat) (lrate : ℚ) (groups : List ℚ) : List ℚ :=
  if warmup ≠ 0 ∧ globalStep < warmup then
    groups.map (fun _ => min 1 (((globalStep : ℚ) + 1) / (warmup : ℚ)) * lrate)
  else groups

/-! ### Mask-layer hyperparameter reuse: RecognitionPretrainModel.setup -/

structure MaskHParams where
  mask_width : Nat
  mask_prob : ℚ
  num_negatives : Nat
  mask_mask_prob : Option ℚ
  deriving DecidableEq, Repr

structure Wav2Vec2MaskLayer where
  mask_width : Nat
  mask_prob : ℚ
  num_negatives : Nat
  deriving DecidableEq, Repr

/-- Embeds the hyperparameter overrides when setup reuses the wav2vec2mask
layer found in a loaded model (model.py lines 477 to 479): mask_width and
num_negatives are overwritten with the values of the layer, but the
assignment for the probability writes a key named mask_mask_prob, leaving
mask_prob unchanged. -/
def setupReuseMaskLayer (hp : MaskHParams) (layer : Wav2Vec2MaskLayer) : MaskHParams :=
  { hp with
    mask_width := layer.mask_width,
    mask_mask_prob := some layer.mask_prob,
    num_negatives := layer.num_negatives }

/-! ### Step exception handling: RecognitionPretrainModel._step -/

/-- Outcome of running the body of the try block in _step: either a value, or
a RuntimeError, which is an out-of-memory error or not. -/
inductive StepBodyOutcome (α : Type) where
  | ok (value : α)
  | runtimeError (isOOM : Bool)

/-- Result of _step as observed by the caller: `returned (some v)` is a normal
return, `returned none` is the implicit None return after the handled OOM
branch, and `raised` means the exception propagated. The flags record whether
the OOM warning was logged and the device caches freed. -/
structure StepResult (α : Type) where
  returned : Option (Option α)
  warnedOOM : Bool
  freedCache : Bool

/-- Embeds the try/except RuntimeError wrapper of _step (model.py lines 346
to 387): is_oom_error failures log a warning, call garbage_collection_cuda
and fall through (returning None); other RuntimeErrors are re-raised. -/
def stepExceptionHandler {α : Type} (body : StepBodyOutcome α) : StepResult α :=
  match body with
  | StepBodyOutcome.ok v =>
      { returned := some (some v), warnedOOM := false, freedCache := false }
  | StepBodyOutcome.runtimeError true =>
      { returned := some none, warnedOOM := true, freedCache := true }
  | StepBodyOutcome.runtimeError false =>
      { returned := none, warnedOOM := false, freedCache := false }

/-- Embeds the feature-map height check of _step (model.py lines 354 to 358):
if the vertical dimension (size(2)) of the feature-extractor output is not 1,
a KrakenInputException is raised before the wav2vec2mask layer is applied;
otherwise the masking layer is invoked on the features. -/
def stepThroughMask {α : Type} (heightDim : Nat) (maskLayer : Unit → α) : Except String α :=
  if heightDim ≠ 1 then
    Except.error ("Expected dimension 3 to be 1, actual " ++ toString heightDim)
  else Except.ok (maskLayer ())

/-! ### Metric tracking: validation_step / on_validation_epoch_end -/

/-- The tracker state of RecognitionPretrainModel: best_epoch and best_metric
(model.py lines 316 to 317, best_metric starts at math.inf, modelled as the
top element of WithTop) and the accumulator list val_ce (line 320). -/
structure TrackerState where
  best_epoch : Nat
  best_metric : WithTop ℚ
  val_ce : List ℚ
  deriving DecidableEq

/-- The state right after __init__ (model.py lines 316 to 320). -/
def initTracker : TrackerState :=
  { best_epoch := 0, best_metric := ⊤, val_ce := [] }

/-- np.mean of the accumulated losses (model.py line 398); meaningful for a
nonempty list. -/
def listMean (l : List ℚ) : ℚ := l.sum / (l.length : ℚ)

/-- Embeds the loss accumulation in validation_step (model.py line 393). -/
def validationStep (st : TrackerState) (loss : ℚ) : TrackerState :=
  { st with val_ce := st.val_ce ++ [loss] }

/-- Embeds on_validation_epoch_end (model.py lines 396 to 406): outside
sanity checking, the accumulated losses are averaged and the best pair is
updated when the average is strictly below best_metric; the accumulator is
cleared in every case. -/
def onValidationEpochEnd (sanityChecking : Bool) (currentEpoch : Nat)
    (st : TrackerState) : TrackerState :=
  if sanityChecking then { st with val_ce := [] }
  else
    let ce := listMean st.val_ce
    let st1 := if (ce : WithTop ℚ) < st.best_metric then
        { st with best_epoch := currentEpoch, best_metric := (ce : WithTop ℚ) }
      else st
    { st1 with val_ce := [] }

/-- One validation epoch consisting of a single batch with the given loss,
followed by the epoch-end hook outside sanity checking. -/
def runValEpoch (st : TrackerState) (currentEpoch : Nat) (loss : ℚ) : TrackerState :=
  onValidationEpochEnd false currentEpoch (validationStep st loss)

/-! ### Contrastive loss construction: RecognitionPretrainModel._step

Feature vectors are lists of rationals; the masked positions are flattened
into one axis. x are the encoder outputs at masked positions, y the true
unmasked targets (same shape as x, since x is reshaped as y), negatives the
stacked negative samples (each entry one distractor per masked position). -/

abbrev Vec := List ℚ

/-- Embeds torch.cat([y.unsqueeze(0), negatives], dim=0) (model.py line 371):
the positive targets become entry 0 along the class dimension. -/
def maskNNeg (y : List Vec) (negatives : List (List Vec)) : List (List Vec) :=
  y :: negatives

/-- Embeds torch.cosine_similarity(x, mask_n_neg, dim=-1) (model.py line
372): x broadcasts along the class dimension, so row k of the logits holds
the similarity of each masked position against class k. The pointwise
similarity kernel is a parameter (the claims do not depend on its values). -/
def cosLogits (sim : Vec → Vec → ℚ) (x : List Vec) (classes : List (List Vec)) :
    List (List ℚ) :=
  classes.map (fun c => List.zipWith sim x c)

/-- Embeds logits.new_zeros(logits.size(1) * logits.size(2)) (model.py line
374): one zero target per masked position. -/
def stepTargets (numPositions : Nat) : List Nat := List.replicate numPositions 0

/-- Embeds logits.transpose(0, 2) followed by reshape(-1, logits.size(-1))
(model.py lines 376 to 377) for the flattened-position model: the result has
one row per masked position, one column per class. -/
def transposeLogits (m : List (List ℚ)) (numPositions : Nat) : List (List ℚ) :=
  (List.range numPositions).map (fun j => m.map (fun row => row.getD j 0))

/-- Embeds logits /= self.hparams.logit_temp (model.py line 378). -/
def scaleByTemp (m : List (List ℚ)) (temp : ℚ) : List (List ℚ) :=
  m.map (fun row => row.map (fun v => v / temp))

/-- The contrastive portion of _step (model.py lines 364 to 380): prepend the
positive targets to the negatives, compute similarity logits, build the
all-zero target vector, transpose and scale the logits. Returns the logits
fed to F.cross_entropy (rows indexed by masked position, columns by class)
and the targets. -/
def stepContrastive (sim : Vec → Vec → ℚ) (x y : List Vec)
    (negatives : List (List Vec)) (temp : ℚ) : List (List ℚ) × List Nat :=
  let classes := maskNNeg y negatives
  let logits := cosLogits sim x classes
  let numPositions := (List.zipWith sim x y).length
  (scaleByTemp (transposeLogits logits numPositions) temp, stepTargets numPositions)

/-! ## Theorems for the claims -/

/-- Claim C2, counterexample: in _build_dataset a missing-file error raised
by dataset.add is not caught; the build aborts and the subsequent sample is
never added, contradicting the claim that the sample is skipped and later
samples are still added. -/
theorem build_dataset_missing_file_aborts :
    buildDataset [AddOutcome.fileNotFound "im.png", AddOutcome.ok] =
      Except.error (AddOutcome.fileNotFound "im.png") ∧
    buildDataset [AddOutcome.fileNotFound "im.png", AddOutcome.ok] ≠
      Except.ok (1, 1) :=
  ⟨rfl, by simp [buildDataset]⟩

/-- Claim C2, amended: in _build_dataset only a KrakenInputException raised
by dataset.add is caught, logged as a warning and the sample skipped while
subsequent samples are still added; a missing-file error or any other error
propagates and aborts the build. The helper _star_fun does catch both
missing-file and KrakenInputException errors, but is not part of the build
loop. -/
theorem build_dataset_skip_policy (msg : String) (rest : List AddOutcome) :
    buildDataset (AddOutcome.krakenInput msg :: rest) =
      (buildDataset rest).map (fun p => (p.1, p.2 + 1)) ∧
    buildDataset (AddOutcome.ok :: rest) =
      (buildDataset rest).map (fun p => (p.1 + 1, p.2)) ∧
    buildDataset (AddOutcome.fileNotFound msg :: rest) =
      Except.error (AddOutcome.fileNotFound msg) ∧
    buildDataset (AddOutcome.otherError msg :: rest) =
      Except.error (AddOutcome.otherError msg) ∧
    starFun (AddOutcome.fileNotFound msg) = Except.ok none ∧
    starFun (AddOutcome.krakenInput msg) = Except.ok none ∧
    starFun (AddOutcome.otherError msg) = Except.error (AddOutcome.otherError msg) := by
  refine ⟨?_, ?_, rfl, rfl, rfl, rfl, rfl⟩ <;>
  · cases h : buildDataset rest with
    | ok p => simp [buildDataset, h, Except.map]
    | error e => simp [buildDataset, h, Except.map]

/-- Claim C3: an out-of-memory RuntimeError in _step logs a warning, frees
the cached device memory and makes the step return no result; a RuntimeError
that is not out-of-memory propagates; a successful body returns its value. -/
theorem step_oom_handling {α : Type} (v : α) :
    stepExceptionHandler (StepBodyOutcome.runtimeError (α := α) true) =
      { returned := some none, warnedOOM := true, freedCache := true } ∧
    stepExceptionHandler (StepBodyOutcome.runtimeError (α := α) false) =
      { returned := none, warnedOOM := false, freedCache := false } ∧
    stepExceptionHandler (StepBodyOutcome.ok v) =
      { returned := some (some v), warnedOOM := false, freedCache := false } :=
  ⟨rfl, rfl, rfl⟩

/-- Claim C4: when the feature-extractor output has a vertical dimension
other than 1, _step raises a KrakenInputException before the masking layer is
applied (the result does not depend on the masking layer at all); when the
vertical dimension is 1, the masking layer is reached and applied. -/
theorem step_height_check {α : Type} (heightDim : Nat) (maskLayer altLayer : Unit → α) :
    (heightDim ≠ 1 →
      stepThroughMask heightDim maskLayer =
        Except.error ("Expected dimension 3 to be 1, actual " ++ toString heightDim) ∧
      stepThroughMask heightDim maskLayer = stepThroughMask heightDim altLayer) ∧
    (heightDim = 1 → stepThroughMask heightDim maskLayer = Except.ok (maskLayer ())) := by
  constructor
  · intro h
    constructor <;> simp [stepThroughMask, h]
  · intro h
    simp [stepThroughMask, h]

/-- Witness for claim C4: concrete height 2 raises the input-shape error and
the result is independent of the masking layer. -/
theorem step_height_check_witness :
    stepThroughMask 2 (fun _ => true) =
      Except.error ("Expected dimension 3 to be 1, actual " ++ toString 2) ∧
    stepThroughMask 2 (fun _ => true) = stepThroughMask 2 (fun _ => false) :=
  (step_height_check 2 (fun _ => true) (fun _ => false)).1 (by decide)

/-- Claim C5: while warmup is configured (nonzero) and global_step is below
warmup, every parameter group learning rate becomes
min(1, (global_step + 1) / warmup) times the configured rate; with
warmup = 100 and global_step = 49 the scale is exactly one half; once
global_step is at least warmup no override is applied. -/
theorem optimizer_warmup_scaling (warmup globalStep : Nat) (lrate : ℚ)
    (groups : List ℚ) (hw : warmup ≠ 0) :
    (globalStep < warmup →
      warmupLRUpdate warmup globalStep lrate groups =
        groups.map (fun _ => min 1 (((globalStep : ℚ) + 1) / (warmup : ℚ)) * lrate)) ∧
    (warmup ≤ globalStep → warmupLRUpdate warmup globalStep lrate groups = groups) ∧
    warmupLRUpdate 100 49 lrate groups = groups.map (fun _ => (1 / 2 : ℚ) * lrate) := by
  refine ⟨fun h => by simp [warmupLRUpdate, hw, h], fun h => by
    simp [warmupLRUpdate, Nat.not_lt.mpr h], ?_⟩
  have hhalf : min (1 : ℚ) (((49 : ℚ) + 1) / (100 : ℚ)) = 1 / 2 := by norm_num
  simp [warmupLRUpdate, hhalf]

/-- Witness for claim C5 at warmup 100, step 49, rate 3 on one group. -/
theorem optimizer_warmup_scaling_witness :
    warmupLRUpdate 100 49 (3 : ℚ) [(7 : ℚ)] =
      [(7 : ℚ)].map (fun _ => (1 / 2 : ℚ) * 3) :=
  (optimizer_warmup_scaling 100 49 3 [7] (by decide)).2.2

/-- Claim C8: a loaded model whose stored type is neither unset nor
recognition (for example segmentation) makes the constructor raise a
configuration error naming the mismatched type; unset or recognition types
are accepted. -/
theorem loaded_model_type_check (t : String) (ht : t ≠ "recognition") :
    checkModelType (some "segmentation") = ModelTypeCheck.wrongType "segmentation" ∧
    checkModelType none = ModelTypeCheck.accepted ∧
    checkModelType (some "recognition") = ModelTypeCheck.accepted ∧
    checkModelType (some t) = ModelTypeCheck.wrongType t := by
  refine ⟨by decide, rfl, by decide, ?_⟩
  simp [checkModelType, ht]

/-- Witness for claim C8 at the concrete type segmentation. -/
theorem loaded_model_type_check_witness :
    checkModelType (some "segmentation") = ModelTypeCheck.wrongType "segmentation" ∧
    checkModelType none = ModelTypeCheck.accepted ∧
    checkModelType (some "recognition") = ModelTypeCheck.accepted ∧
    checkModelType (some "segmentation") = ModelTypeCheck.wrongType "segmentation" :=
  loaded_model_type_check "segmentation" (by decide)

/-- Claim C9: after the splits are built, an empty train or validation split
raises a configuration error; when both splits are nonempty no such error is
raised. -/
theorem empty_split_configuration_error (trainLen valLen : Nat) :
    (trainLen = 0 ∨ valLen = 0 →
      checkSplits trainLen valLen = Except.error
        "No valid training data was provided to the train command. Please add valid XML, line, or binary data.") ∧
    (trainLen ≠ 0 → valLen ≠ 0 → checkSplits trainLen valLen = Except.ok ()) := by
  constructor
  · intro h
    simp [checkSplits, h]
  · intro h1 h2
    simp [checkSplits, h1, h2]

/-- Witness for claim C9: an empty validation split errors, two nonempty
splits pass. -/
theorem empty_split_configuration_error_witness :
    checkSplits 3 0 = Except.error
      "No valid training data was provided to the train command. Please add valid XML, line, or binary data." ∧
    checkSplits 3 5 = Except.ok () :=
  ⟨(empty_split_configuration_error 3 0).1 (Or.inr rfl),
   (empty_split_configuration_error 3 5).2 (by decide) (by decide)⟩

/-- Claim C10: when setup reuses the wav2vec2mask layer of a loaded model,
the stored mask_width and num_negatives hyperparameters are overwritten with
the layer values, mask_prob is left unchanged and a separate mask_mask_prob
key receives the layer probability, so the persisted mask probability can
differ from the probability of the reused layer. -/
theorem setup_mask_hyperparameter_frame (hp : MaskHParams) (layer : Wav2Vec2MaskLayer) :
    (setupReuseMaskLayer hp layer).mask_width = layer.mask_width ∧
    (setupReuseMaskLayer hp layer).num_negatives = layer.num_negatives ∧
    (setupReuseMaskLayer hp layer).mask_prob = hp.mask_prob ∧
    (setupReuseMaskLayer hp layer).mask_mask_prob = some layer.mask_prob ∧
    (setupReuseMaskLayer
        { mask_width := 4, mask_prob := 1 / 2, num_negatives := 100, mask_mask_prob := none }
        { mask_width := 6, mask_prob := 7 / 10, num_negatives := 50 }).mask_prob ≠
      (7 / 10 : ℚ) :=
  ⟨rfl, rfl, rfl, rfl, by norm_num [setupReuseMaskLayer]⟩

/-- Claim C6: with neither an explicit eval set nor a pre-encoded split, the
random fractional split of a dataset of size N at fraction f yields a train
split of exactly floor(N * f) indices, a validation split of exactly
N - floor(N * f) indices, and the two index lists are disjoint. -/
theorem random_fractional_split_sizes (perm : List Nat) (n : Nat) (f : ℚ)
    (hperm : perm.Nodup) (hlen : perm.length = n) (hf0 : 0 ≤ f) (hf1 : f ≤ 1) :
    ((trainSplitLen n f : ℤ) = Int.floor ((n : ℚ) * f)) ∧
    (randomSplit perm (trainSplitLen n f)).1.length = trainSplitLen n f ∧
    (randomSplit perm (trainSplitLen n f)).2.length = n - trainSplitLen n f ∧
    List.Disjoint (randomSplit perm (trainSplitLen n f)).1
      (randomSplit perm (trainSplitLen n f)).2 := by
  have hfl0 : (0 : ℤ) ≤ Int.floor ((n : ℚ) * f) := by
    apply Int.floor_nonneg.mpr
    positivity
  have hle : trainSplitLen n f ≤ n := by
    unfold trainSplitLen
    have h1 : (n : ℚ) * f ≤ (n : ℚ) := by
      calc (n : ℚ) * f ≤ (n : ℚ) * 1 := by
            exact mul_le_mul_of_nonneg_left hf1 (by positivity)
        _ = (n : ℚ) := mul_one _
    have h2 : Int.floor ((n : ℚ) * f) ≤ (n : ℤ) := by
      have := Int.floor_le_floor h1
      simpa using this
    exact Int.toNat_le.mpr h2
  refine ⟨?_, ?_, ?_, ?_⟩
  · unfold trainSplitLen
    exact Int.toNat_of_nonneg hfl0
  · simp [randomSplit, hlen, hle]
  · simp [randomSplit, hlen]
  · exact List.disjoint_take_drop hperm (le_refl _)

/-- Witness for claim C6 on the permutation [2, 0, 1] of a dataset of size 3
with fraction 9/10. -/
theorem random_fractional_split_sizes_witness :
    ((trainSplitLen 3 (9 / 10) : ℤ) = Int.floor ((3 : ℚ) * (9 / 10))) ∧
    (randomSplit [2, 0, 1] (trainSplitLen 3 (9 / 10))).1.length = trainSplitLen 3 (9 / 10) ∧
    (randomSplit [2, 0, 1] (trainSplitLen 3 (9 / 10))).2.length = 3 - trainSplitLen 3 (9 / 10) ∧
    List.Disjoint (randomSplit [2, 0, 1] (trainSplitLen 3 (9 / 10))).1
      (randomSplit [2, 0, 1] (trainSplitLen 3 (9 / 10))).2 :=
  random_fractional_split_sizes [2, 0, 1] 3 (9 / 10) (by decide) rfl
    (by norm_num) (by norm_num)

/-- Claim C7: the tracker starts with best epoch 0 and best metric plus
infinity; at every non-sanity validation epoch end the accumulated losses are
averaged, the best pair is updated exactly when the average is strictly below
the current best (ties do not update), and the accumulator is cleared in
every case; the three single-batch epochs with losses 1/2, 3/10, 2/5 end with
best metric 3/10 at best epoch 1. -/
theorem metric_tracker_contract (st : TrackerState) (sanity : Bool) (e : Nat)
    (hne : st.val_ce ≠ []) :
    initTracker.best_epoch = 0 ∧
    initTracker.best_metric = ⊤ ∧
    (onValidationEpochEnd sanity e st).val_ce = [] ∧
    ((onValidationEpochEnd false e st).best_metric,
      (onValidationEpochEnd false e st).best_epoch) =
      (if ((listMean st.val_ce : ℚ) : WithTop ℚ) < st.best_metric then
        (((listMean st.val_ce : ℚ) : WithTop ℚ), e)
      else (st.best_metric, st.best_epoch)) ∧
    (runValEpoch (runValEpoch (runValEpoch initTracker 0 (1 / 2)) 1 (3 / 10)) 2
        (2 / 5)).best_metric = ((3 / 10 : ℚ) : WithTop ℚ) ∧
    (runValEpoch (runValEpoch (runValEpoch initTracker 0 (1 / 2)) 1 (3 / 10)) 2
        (2 / 5)).best_epoch = 1 := by
  have hclear : (onValidationEpochEnd sanity e st).val_ce = [] := by
    cases sanity <;> rfl
  have hupd : ((onValidationEpochEnd false e st).best_metric,
      (onValidationEpochEnd false e st).best_epoch) =
      (if ((listMean st.val_ce : ℚ) : WithTop ℚ) < st.best_metric then
        (((listMean st.val_ce : ℚ) : WithTop ℚ), e)
      else (st.best_metric, st.best_epoch)) := by
    by_cases h : ((listMean st.val_ce : ℚ) : WithTop ℚ) < st.best_metric <;>
      simp [onValidationEpochEnd, h]
  refine ⟨rfl, rfl, hclear, hupd, ?_, ?_⟩ <;>
    norm_num [runValEpoch, onValidationEpochEnd, validationStep, initTracker,
      listMean]

/-- Witness for claim C7 at a concrete nonempty accumulator. -/
theorem metric_tracker_contract_witness :
    initTracker.best_epoch = 0 ∧
    initTracker.best_metric = ⊤ ∧
    (onValidationEpochEnd true 0 ⟨0, ⊤, [(1 : ℚ)]⟩).val_ce = [] ∧
    ((onValidationEpochEnd false 0 ⟨0, ⊤, [(1 : ℚ)]⟩).best_metric,
      (onValidationEpochEnd false 0 ⟨0, ⊤, [(1 : ℚ)]⟩).best_epoch) =
      (if ((listMean [(1 : ℚ)] : ℚ) : WithTop ℚ) < (⊤ : WithTop ℚ) then
        (((listMean [(1 : ℚ)] : ℚ) : WithTop ℚ), 0)
      else ((⊤ : WithTop ℚ), 0)) ∧
    (runValEpoch (runValEpoch (runValEpoch initTracker 0 (1 / 2)) 1 (3 / 10)) 2
        (2 / 5)).best_metric = ((3 / 10 : ℚ) : WithTop ℚ) ∧
    (runValEpoch (runValEpoch (runValEpoch initTracker 0 (1 / 2)) 1 (3 / 10)) 2
        (2 / 5)).best_epoch = 1 :=
  metric_tracker_contract ⟨0, ⊤, [(1 : ℚ)]⟩ true 0 (by simp)

/-- Claim C1: in the contrastive step the positive (unmasked) targets are
prepended to the negative samples before the cosine-similarity logits are
computed, the targets vector is all zeros with one entry per masked position,
and after the transpose and temperature scaling the class at index 0 of every
row fed to the cross-entropy is the similarity against the positive target at
that masked position. -/
theorem contrastive_positive_prepended (sim : Vec → Vec → ℚ) (x y : List Vec)
    (negatives : List (List Vec)) (temp : ℚ) :
    maskNNeg y negatives = y :: negatives ∧
    (stepContrastive sim x y negatives temp).2 =
      List.replicate (List.zipWith sim x y).length 0 ∧
    (∀ t ∈ (stepContrastive sim x y negatives temp).2, t = 0) ∧
    (stepContrastive sim x y negatives temp).1.length =
      (stepContrastive sim x y negatives temp).2.length ∧
    (stepContrastive sim x y negatives temp).1.map List.head? =
      (List.range (List.zipWith sim x y).length).map
        (fun j => some ((List.zipWith sim x y).getD j 0 / temp)) := by
  refine ⟨rfl, rfl, ?_, ?_, ?_⟩
  · intro t ht
    exact List.eq_of_mem_replicate ht
  · simp [stepContrastive, scaleByTemp, transposeLogits, stepTargets]
  · simp only [stepContrastive, scaleByTemp, transposeLogits, cosLogits,
      maskNNeg, List.map_map]
    refine List.map_congr_left ?_
    intro j hj
    rfl

end KrakenPretrain
